import Mathlib

/-!
Verification of the xeyes hook bridge (`src/hook/src/lib.rs` and the host
window procedure in `src/xeyes/src/main.rs`).

The Rust code talks to the operating system through a handful of Win32
calls (OpenFileMappingW, MapViewOfFile, UnmapViewOfFile, CloseHandle,
SetWindowsHookExW, UnhookWindowsHookEx, SendMessageW, CallNextHookEx).
We embed each operation of the module as a pure function that takes

  * an `Env` describing how those OS calls behave during the operation
    (does the named region exist, does mapping yield an address, does hook
    registration succeed, ...), and
  * the current contents `ShareData` of the shared record,

and returns the operation's result, the shared record afterwards, and the
list of OS calls the operation performed, in order.  Handles are modelled
as machine words (`Nat`), with `0` standing for the null handle.
-/

namespace XeyesHook

/-- Embedding of `struct ShareData { hook: HHOOK, hwnd: HWND }`: the two
machine-word-sized nullable handles stored in the shared region. `0` is the
null handle. -/
structure ShareData where
  hook : Nat
  hwnd : Nat
deriving Repr, DecidableEq

/-- Embedding of `MSLLHOOKSTRUCT`: the low-level mouse event payload the OS
hands to the hook (screen point plus hook metadata). `lparam` in `hook_proc`
points at one of these. -/
structure MSLLHOOKSTRUCT where
  ptX : Int
  ptY : Int
  mouseData : Nat
  flags : Nat
  time : Nat
  dwExtraInfo : Nat
deriving Repr, DecidableEq

/-- `HC_ACTION as i32` (the `code` value meaning an actionable
notification). -/
def HC_ACTION : Int := 0

/-- `WM_MOUSEMOVE` = 0x200. -/
def WM_MOUSEMOVE : Nat := 0x200

/-- `WM_USER` = 0x400. -/
def WM_USER : Nat := 0x400

/-- `pub const WM_HOOK_MOUSE_POS: u32 = WM_USER + 42;` -/
def WM_HOOK_MOUSE_POS : Nat := WM_USER + 42

/-- Behaviour of the OS during one operation of the module.

`regionExists`: whether a file mapping with the well-known name
`XEyesMemoryMapObject` currently exists, i.e. whether `OpenFileMappingW`
succeeds.  The region is created once at module load by
`create_memory_map`; if that creation failed, no region with the name
exists and every later `OpenFileMappingW` on it fails.

`viewAddrOk`: whether `MapViewOfFile` returns a non-null address.

`mapHandle`: the (non-null) handle value `OpenFileMappingW` returns when it
succeeds.

`setHookResult`: outcome of `SetWindowsHookExW` — `some h` means success
and the returned `HHOOK` value is `h`, `none` means registration failure.

`unhookOk`: the boolean result of `UnhookWindowsHookEx`.

`nextHookVal`: the `LRESULT` that `CallNextHookEx` returns for the event
being dispatched. -/
structure Env where
  regionExists : Bool
  viewAddrOk : Bool
  mapHandle : Nat
  setHookResult : Option Nat
  unhookOk : Bool
  nextHookVal : Int
deriving Repr, DecidableEq

/-- One OS call performed by an operation, as recorded in its trace. -/
inductive OsCall where
  /-- `OpenFileMappingW` succeeded and handed out this mapping handle. -/
  | openedMapping (handle : Nat)
  /-- `OpenFileMappingW` failed (no region with the name exists). -/
  | openMappingFailed
  /-- `UnmapViewOfFile` on the mapped view. -/
  | unmappedView
  /-- `HANDLE::free` (CloseHandle) on this handle. -/
  | freedHandle (handle : Nat)
  /-- `SendMessageW(hwnd, msg, None, Some(lparam))`. -/
  | sentMessage (hwnd : Nat) (msg : Nat) (lparam : MSLLHOOKSTRUCT)
  /-- `CallNextHookEx(None, code, wparam, lparam)`. -/
  | calledNextHook (code : Int) (wparam : Nat) (lparam : MSLLHOOKSTRUCT)
  /-- `SetWindowsHookExW(WH_MOUSE_LL, hook_proc, hinst, 0)` was called;
  `ok` records whether it succeeded. -/
  | setHookCalled (ok : Bool)
  /-- `UnhookWindowsHookEx` on this hook handle; `ok` is the OS result. -/
  | unhooked (hook : Nat) (ok : Bool)
deriving Repr, DecidableEq

/-- Failures of `MapView::new` and of the install operation, before they are
collapsed to a boolean at the public boundary (`anyhow::Result` in the
source). -/
inductive OpError where
  /-- `OpenFileMappingW` failed. -/
  | mappingOpen
  /-- `MapViewOfFile` returned a null address (the `ensure!` in
  `MapView::new`). -/
  | mappingView
  /-- `SetWindowsHookExW` failed. -/
  | hookRegistration
deriving Repr, DecidableEq

/-- Embedding of `MapView::new`.

```rust
let handle = unsafe { OpenFileMappingW(FILE_MAP_ALL_ACCESS.0, false, NAME)? };
let map_view_address =
    unsafe { MapViewOfFile(handle, FILE_MAP_ALL_ACCESS, 0, 0, size_of::<ShareData>()) };
ensure!(!map_view_address.Value.is_null(), "failed to get map view.");
Ok(Self { handle, map_view_address })
```

On success it returns the acquired mapping handle.  Note that when the
`ensure!` fails the already-opened `handle` is a plain `Copy` value, no
`MapView` has been constructed yet, and the function returns without
closing it: the trace of that path records the open but no release. -/
def MapView.new (env : Env) : Except OpError Nat × List OsCall :=
  if env.regionExists then
    if env.viewAddrOk then
      (Except.ok env.mapHandle, [OsCall.openedMapping env.mapHandle])
    else
      (Except.error OpError.mappingView, [OsCall.openedMapping env.mapHandle])
  else
    (Except.error OpError.mappingOpen, [OsCall.openMappingFailed])

/-- Embedding of `impl Drop for MapView`: unmap the view, then free the
mapping handle.  Runs when a successfully constructed view goes out of
scope. -/
def MapView.dropTrace (handle : Nat) : List OsCall :=
  [OsCall.unmappedView, OsCall.freedHandle handle]

/-- Embedding of `hook_proc`.

```rust
unsafe extern "system" fn hook_proc(code: i32, wparam: WPARAM, lparam: LPARAM) -> LRESULT {
    if code == HC_ACTION as _ && wparam.0 == WM_MOUSEMOVE as _ {
        let Ok(share_data) = MapView::new() else {
            return unsafe { CallNextHookEx(None, code, wparam, lparam) };
        };
        unsafe { SendMessageW(share_data.hwnd, WM_HOOK_MOUSE_POS, None, Some(lparam)) };
    }
    unsafe { CallNextHookEx(None, code, wparam, lparam) }
}
```

`lparam` points at the OS-owned `MSLLHOOKSTRUCT`; we pass that structure by
value.  The view reads `share.hwnd` through `Deref`; nothing is written, so
the record is returned unchanged.  The view drops at the end of the `if`
block, before the final `CallNextHookEx`.  Returns the `LRESULT`, the
shared record afterwards, and the trace of OS calls. -/
def hook_proc (env : Env) (share : ShareData) (code : Int) (wparam : Nat)
    (lparam : MSLLHOOKSTRUCT) : Int × ShareData × List OsCall :=
  if code = HC_ACTION ∧ wparam = WM_MOUSEMOVE then
    match MapView.new env with
    | (Except.error _, tr) =>
        (env.nextHookVal, share, tr ++ [OsCall.calledNextHook code wparam lparam])
    | (Except.ok h, tr) =>
        (env.nextHookVal, share,
          tr ++ [OsCall.sentMessage share.hwnd WM_HOOK_MOUSE_POS lparam]
             ++ MapView.dropTrace h
             ++ [OsCall.calledNextHook code wparam lparam])
  else
    (env.nextHookVal, share, [OsCall.calledNextHook code wparam lparam])

/-- Embedding of `set_hook_impl`.

```rust
fn set_hook_impl(hwnd: HWND) -> Result<()> {
    let mut share_data = MapView::new()?;
    share_data.hwnd = hwnd;
    let hhook = unsafe { SetWindowsHookExW(WH_MOUSE_LL, Some(hook_proc), HINST.get(), 0)? };
    share_data.hook = hhook;
    Ok(())
}
```

The write `share_data.hwnd = hwnd` goes through `DerefMut` straight into
the shared record, before hook registration is attempted; when
`SetWindowsHookExW` fails the `?` returns early and that write stays.  The
view drops on every exit after construction. -/
def set_hook_impl (env : Env) (share : ShareData) (hwnd : Nat) :
    Except OpError Unit × ShareData × List OsCall :=
  match MapView.new env with
  | (Except.error e, tr) => (Except.error e, share, tr)
  | (Except.ok h, tr) =>
    let share1 : ShareData := { share with hwnd := hwnd }
    match env.setHookResult with
    | none =>
        (Except.error OpError.hookRegistration, share1,
          tr ++ [OsCall.setHookCalled false] ++ MapView.dropTrace h)
    | some hhook =>
        (Except.ok (), { share1 with hook := hhook },
          tr ++ [OsCall.setHookCalled true] ++ MapView.dropTrace h)

/-- Embedding of `pub fn set_hook(hwnd: HWND) -> bool { set_hook_impl(hwnd).is_ok() }`. -/
def set_hook (env : Env) (share : ShareData) (hwnd : Nat) :
    Bool × ShareData × List OsCall :=
  match set_hook_impl env share hwnd with
  | (r, s, tr) => (r.toBool, s, tr)

/-- Embedding of `end_hook_impl`.

```rust
fn end_hook_impl() -> Result<()> {
    let mut share_data = MapView::new()?;
    unsafe { share_data.hook.free() };
    Ok(())
}
```

`HHOOK::free` (the windows crate's `Free` impl) calls
`UnhookWindowsHookEx(*self)` when the handle is not null, discards its
result, and does not zero the handle; so the shared record is only read,
the OS result is ignored, and the function returns `Ok(())` whenever the
view opened. -/
def end_hook_impl (env : Env) (share : ShareData) :
    Except OpError Unit × ShareData × List OsCall :=
  match MapView.new env with
  | (Except.error e, tr) => (Except.error e, share, tr)
  | (Except.ok h, tr) =>
      (Except.ok (), share,
        tr ++ (if share.hook ≠ 0 then [OsCall.unhooked share.hook env.unhookOk] else [])
           ++ MapView.dropTrace h)

/-- Embedding of `pub fn end_hook() -> bool { end_hook_impl().is_ok() }`. -/
def end_hook (env : Env) (share : ShareData) : Bool × ShareData × List OsCall :=
  match end_hook_impl env share with
  | (r, s, tr) => (r.toBool, s, tr)

/-- Host-side state touched by the `WM_HOOK_MOUSE_POS` arm of `wnd_proc` in
`src/xeyes/src/main.rs`: the thread-local `POS` cell and whether
`InvalidateRect` was requested. -/
structure HostState where
  pos : Option (Int × Int)
  invalidated : Bool
deriving Repr, DecidableEq

/-- Embedding of the `WM_HOOK_MOUSE_POS` arm of the host `wnd_proc`:

```rust
WM_HOOK_MOUSE_POS => {
    let ms = unsafe { &*(lparam.0 as *const MSLLHOOKSTRUCT) };
    POS.set(Some(ms.pt));
    _ = unsafe { InvalidateRect(Some(hwnd), None, true) };
}
```

Other message kinds leave `POS` alone (they go to painting, window
lifecycle or `DefWindowProcW`). -/
def wnd_proc_on_message (st : HostState) (msg : Nat) (lparam : MSLLHOOKSTRUCT) :
    HostState :=
  if msg = WM_HOOK_MOUSE_POS then
    { pos := some (lparam.ptX, lparam.ptY), invalidated := true }
  else
    st

/-- Does this OS call deliver a forwarding message (`SendMessageW`)? -/
def OsCall.isSend : OsCall → Bool
  | .sentMessage _ _ _ => true
  | _ => false

/-- Does this OS call acquire a file-mapping handle? -/
def OsCall.opensHandle : OsCall → Bool
  | .openedMapping _ => true
  | _ => false

/-- Does this OS call release a handle? -/
def OsCall.freesHandle : OsCall → Bool
  | .freedHandle _ => true
  | _ => false

/-- Does this OS call attempt a hook registration (`SetWindowsHookExW`)? -/
def OsCall.isSetHook : OsCall → Bool
  | .setHookCalled _ => true
  | _ => false


/-- C1: for every invocation of `hook_proc` — matching or not, view open
succeeding or failing, message sent or not — the callback calls
`CallNextHookEx` on the event and returns that call's result; it never
short-circuits the chain. -/
theorem hook_proc_chains_to_next_hook (env : Env) (share : ShareData)
    (code : Int) (wparam : Nat) (lparam : MSLLHOOKSTRUCT) :
    (hook_proc env share code wparam lparam).1 = env.nextHookVal ∧
    OsCall.calledNextHook code wparam lparam ∈
      (hook_proc env share code wparam lparam).2.2 := by
  unfold hook_proc MapView.new
  by_cases h : code = HC_ACTION ∧ wparam = WM_MOUSEMOVE <;>
    cases hre : env.regionExists <;> cases hva : env.viewAddrOk <;>
      simp [h, MapView.dropTrace]

/-- C10: `hook_proc` only reads the shared record; for every invocation and
every record contents, both fields are left unchanged. -/
theorem hook_proc_preserves_share (env : Env) (share : ShareData)
    (code : Int) (wparam : Nat) (lparam : MSLLHOOKSTRUCT) :
    (hook_proc env share code wparam lparam).2.1 = share := by
  unfold hook_proc MapView.new
  by_cases h : code = HC_ACTION ∧ wparam = WM_MOUSEMOVE <;>
    cases hre : env.regionExists <;> cases hva : env.viewAddrOk <;>
      simp [h]

/-- C9: after `end_hook` returns, the shared record's `hook` and `hwnd`
fields keep their prior values: the operation clears neither. -/
theorem end_hook_clears_nothing (env : Env) (share : ShareData) :
    ((end_hook env share).2.1).hook = share.hook ∧
    ((end_hook env share).2.1).hwnd = share.hwnd := by
  unfold end_hook end_hook_impl MapView.new
  cases hre : env.regionExists <;> cases hva : env.viewAddrOk <;> simp

/-- C6 counterexample: with the region present, the view mapping
succeeding, a non-null stored hook handle `3` and the OS deregistration
failing (`unhookOk = false`), `end_hook` still returns `true`, even though
the trace shows the failed `UnhookWindowsHookEx` call — so `end_hook` does
not return the OS deregistration result. -/
theorem end_hook_ignores_unhook_result :
    (end_hook ⟨true, true, 5, none, false, 0⟩ ⟨3, 42⟩).1 = true ∧
    Env.unhookOk ⟨true, true, 5, none, false, 0⟩ = false ∧
    OsCall.unhooked 3 false ∈ (end_hook ⟨true, true, 5, none, false, 0⟩ ⟨3, 42⟩).2.2 := by
  decide

/-- C6 amended: `end_hook` returns `true` exactly when the MapView open
succeeds (region exists and a view address is obtained); the OS
deregistration result is discarded (`HHOOK::free` ignores it). -/
theorem end_hook_true_iff_view_opens (env : Env) (share : ShareData) :
    (end_hook env share).1 = (env.regionExists && env.viewAddrOk) := by
  unfold end_hook end_hook_impl MapView.new
  cases hre : env.regionExists <;> cases hva : env.viewAddrOk <;>
    simp [Except.toBool]

/-- C3 counterexample: an event with actionable `code` (`HC_ACTION`) and
message kind `WM_MOUSEMOVE` satisfies the claimed forwarding condition, yet
when the region does not exist (so `MapView::new` fails) no forwarding
message is sent — the "if" direction of the claimed equivalence fails. -/
theorem hook_proc_match_without_forward :
    (HC_ACTION = HC_ACTION ∧ WM_MOUSEMOVE = WM_MOUSEMOVE) ∧
    ((hook_proc ⟨false, true, 5, none, true, 0⟩ ⟨0, 42⟩ HC_ACTION WM_MOUSEMOVE
        ⟨100, 200, 0, 0, 0, 0⟩).2.2.any OsCall.isSend) = false := by
  decide

/-- C3 amended: `hook_proc` sends a forwarding message if and only if
`code = HC_ACTION`, the message kind is `WM_MOUSEMOVE`, **and** the MapView
open succeeds (the region exists and a view address is obtained); in
particular an event whose `code` is not actionable never triggers
forwarding, for any message kind. -/
theorem hook_proc_sends_iff (env : Env) (share : ShareData)
    (code : Int) (wparam : Nat) (lparam : MSLLHOOKSTRUCT) :
    ((hook_proc env share code wparam lparam).2.2.any OsCall.isSend) = true ↔
      (code = HC_ACTION ∧ wparam = WM_MOUSEMOVE ∧
        env.regionExists = true ∧ env.viewAddrOk = true) := by
  unfold hook_proc MapView.new
  by_cases h : code = HC_ACTION ∧ wparam = WM_MOUSEMOVE <;>
    cases hre : env.regionExists <;> cases hva : env.viewAddrOk <;>
      simp [h, MapView.dropTrace, OsCall.isSend]

/-- C4 counterexample: with the region present and the view mapping
succeeding but the stored `hwnd` null (`0`), a matching event still makes
`hook_proc` call `SendMessageW` — with the null handle as target — because
the source performs no null check before sending. -/
theorem hook_proc_sends_despite_null_target :
    ShareData.hwnd ⟨3, 0⟩ = 0 ∧
    OsCall.sentMessage 0 WM_HOOK_MOUSE_POS ⟨100, 200, 0, 0, 0, 0⟩ ∈
      (hook_proc ⟨true, true, 5, none, true, 0⟩ ⟨3, 0⟩ HC_ACTION WM_MOUSEMOVE
        ⟨100, 200, 0, 0, 0, 0⟩).2.2 := by
  decide

/-- C4 amended: when `hook_proc` matches an actionable pointer-move event
and the MapView open succeeds, it reads `hwnd` from the shared record and
sends the `WM_HOOK_MOUSE_POS` message to whatever handle is stored there,
unconditionally — null included; no null check is performed (a send to the
null handle is rejected by the OS, so no window receives it). -/
theorem hook_proc_sends_to_stored_target (env : Env) (share : ShareData)
    (lparam : MSLLHOOKSTRUCT)
    (hre : env.regionExists = true) (hva : env.viewAddrOk = true) :
    OsCall.sentMessage share.hwnd WM_HOOK_MOUSE_POS lparam ∈
      (hook_proc env share HC_ACTION WM_MOUSEMOVE lparam).2.2 := by
  unfold hook_proc MapView.new
  simp [hre, hva]

/-- Witness for C4 amended at a concrete state and event. -/
theorem hook_proc_sends_to_stored_target_witness :
    OsCall.sentMessage 7 WM_HOOK_MOUSE_POS ⟨1, 2, 0, 0, 0, 0⟩ ∈
      (hook_proc ⟨true, true, 5, none, true, 0⟩ ⟨3, 7⟩ HC_ACTION WM_MOUSEMOVE
        ⟨1, 2, 0, 0, 0, 0⟩).2.2 :=
  hook_proc_sends_to_stored_target ⟨true, true, 5, none, true, 0⟩ ⟨3, 7⟩
    ⟨1, 2, 0, 0, 0, 0⟩ rfl rfl

/-- C2 (Scenario A): with the region created, the view mapping succeeding
and hook registration succeeding, `set_hook 42` returns `true`; dispatching
a pointer-move event whose payload point is `(100, 200)` to `hook_proc` in
the resulting shared state sends a `WM_HOOK_MOUSE_POS` message to window
`42` carrying that payload, and the host `wnd_proc`, receiving it, records
the point `(100, 200)`. -/
theorem scenario_a_forwarding (env : Env) (share : ShareData) (hh : Nat)
    (lparam : MSLLHOOKSTRUCT)
    (hre : env.regionExists = true) (hva : env.viewAddrOk = true)
    (hsh : env.setHookResult = some hh)
    (hx : lparam.ptX = 100) (hy : lparam.ptY = 200) :
    (set_hook env share 42).1 = true ∧
    OsCall.sentMessage 42 WM_HOOK_MOUSE_POS lparam ∈
      (hook_proc env (set_hook env share 42).2.1 HC_ACTION WM_MOUSEMOVE lparam).2.2 ∧
    (wnd_proc_on_message ⟨none, false⟩ WM_HOOK_MOUSE_POS lparam).pos = some (100, 200) := by
  unfold set_hook set_hook_impl hook_proc MapView.new wnd_proc_on_message
  simp [hre, hva, hsh, Except.toBool, hx, hy]

/-- Witness for C2 at a concrete environment, shared state and event. -/
theorem scenario_a_forwarding_witness :
    (set_hook ⟨true, true, 5, some 9, true, 0⟩ ⟨0, 0⟩ 42).1 = true ∧
    OsCall.sentMessage 42 WM_HOOK_MOUSE_POS ⟨100, 200, 0, 0, 0, 0⟩ ∈
      (hook_proc ⟨true, true, 5, some 9, true, 0⟩
        (set_hook ⟨true, true, 5, some 9, true, 0⟩ ⟨0, 0⟩ 42).2.1
        HC_ACTION WM_MOUSEMOVE ⟨100, 200, 0, 0, 0, 0⟩).2.2 ∧
    (wnd_proc_on_message ⟨none, false⟩ WM_HOOK_MOUSE_POS
        ⟨100, 200, 0, 0, 0, 0⟩).pos = some (100, 200) :=
  scenario_a_forwarding ⟨true, true, 5, some 9, true, 0⟩ ⟨0, 0⟩ 9
    ⟨100, 200, 0, 0, 0, 0⟩ rfl rfl rfl rfl rfl

/-- C5: when the view opens but `SetWindowsHookExW` fails, `set_hook w`
returns `false`, the shared record's `hwnd` field keeps the newly written
`w` (no rollback), and its `hook` field is exactly what it was before the
call. -/
theorem set_hook_failure_keeps_written_hwnd (env : Env) (share : ShareData)
    (w : Nat) (hre : env.regionExists = true) (hva : env.viewAddrOk = true)
    (hfail : env.setHookResult = none) :
    (set_hook env share w).1 = false ∧
    ((set_hook env share w).2.1).hwnd = w ∧
    ((set_hook env share w).2.1).hook = share.hook := by
  unfold set_hook set_hook_impl MapView.new
  simp [hre, hva, hfail, Except.toBool]

/-- Witness for C5 at a concrete environment and state. -/
theorem set_hook_failure_keeps_written_hwnd_witness :
    (set_hook ⟨true, true, 5, none, true, 0⟩ ⟨8, 1⟩ 42).1 = false ∧
    ((set_hook ⟨true, true, 5, none, true, 0⟩ ⟨8, 1⟩ 42).2.1).hwnd = 42 ∧
    ((set_hook ⟨true, true, 5, none, true, 0⟩ ⟨8, 1⟩ 42).2.1).hook =
      ShareData.hook ⟨8, 1⟩ :=
  set_hook_failure_keeps_written_hwnd ⟨true, true, 5, none, true, 0⟩ ⟨8, 1⟩ 42
    rfl rfl rfl

/-- C7: at the failing input — the region exists and `OpenFileMappingW`
succeeds, but `MapViewOfFile` returns a null address — an install's trace
acquires one file-mapping handle and releases none: the `ensure!` in
`MapView::new` returns before the `MapView` (and its `Drop`) exists, so
the opened handle leaks, contradicting release-on-every-exit-path. -/
theorem set_hook_view_failure_leaks_handle :
    ((set_hook ⟨true, false, 5, some 9, true, 0⟩ ⟨0, 0⟩ 42).2.2.countP
        OsCall.opensHandle) = 1 ∧
    ((set_hook ⟨true, false, 5, some 9, true, 0⟩ ⟨0, 0⟩ 42).2.2.countP
        OsCall.freesHandle) = 0 := by
  decide

/-- C8: if creation of the shared region failed at module load (so no
region with the well-known name exists and `OpenFileMappingW` fails),
`set_hook 7` returns `false` and `SetWindowsHookExW` is never called: no
hook is registered. -/
theorem set_hook_fails_without_region (env : Env) (share : ShareData)
    (hre : env.regionExists = false) :
    (set_hook env share 7).1 = false ∧
    ((set_hook env share 7).2.2.any OsCall.isSetHook) = false := by
  unfold set_hook set_hook_impl MapView.new
  simp [hre, Except.toBool, OsCall.isSetHook]

/-- Witness for C8 at a concrete environment and state. -/
theorem set_hook_fails_without_region_witness :
    (set_hook ⟨false, true, 5, some 9, true, 0⟩ ⟨0, 0⟩ 7).1 = false ∧
    ((set_hook ⟨false, true, 5, some 9, true, 0⟩ ⟨0, 0⟩ 7).2.2.any
        OsCall.isSetHook) = false :=
  set_hook_fails_without_region ⟨false, true, 5, some 9, true, 0⟩ ⟨0, 0⟩ rfl

end XeyesHook
